import Mathlib

/-!
Formal model of the Landlab–Mesa coupling notebooks
(`landlab_mesa_groundwater_pumping.ipynb` and the wolf–sheep–grass /
soil-creep notebook).

The repository's own code is glue: a `FarmerAgent`/`FarmerModel` pair built
on Mesa, two aggregation helpers (`get_well_count`, `generate_grass_map`),
a grass-damage helper (`limit_grass_by_soil`), year-stepping helpers, and
two main coupling loops.  The external solvers (Landlab's
`GroundwaterDupuitPercolator`, `LinearDiffuser`) and the Mesa scheduler
internals are opaque collaborators: they appear below as function
parameters.  Machine floats are modelled by `ℚ`; numpy arrays by `List ℚ`
(flat) or `List (List ℚ)` (2-D); fallible numpy `reshape` by `Option`;
exceptions of the coupling loop by `Except String`.
-/

/-- Row-major 2-D indexing `rows[x][y]`, as numpy `a[x, y]` / `a[x][y]`. -/
def idx2d (rows : List (List ℚ)) (x y : ℕ) : ℚ :=
  (rows.getD x []).getD y 0

/-- numpy `a.reshape((w, h))` of a flat array: succeeds exactly when the
array has `w * h` entries, and then yields a `w`-row, `h`-column row-major
matrix.  A failed reshape raises in numpy; here it is `none`. -/
def reshape2d (l : List ℚ) (w h : ℕ) : Option (List (List ℚ)) :=
  if l.length = w * h then
    some ((List.range w).map fun x => (List.range h).map fun y => l.getD (x * h + y) 0)
  else
    none

/-- Agent record of `FarmerAgent.__init__`: id, grid position, well depth,
and the pumping flag (initially `True`). -/
structure FarmerAgent where
  unique_id : ℕ
  pos : ℕ × ℕ
  well_depth : ℚ
  pumping : Bool
deriving DecidableEq

/-- `FarmerAgent.step`: read the shared `wt_depth_2d` field at the agent's
own position; if the observed depth-to-water-table is `≥ well_depth` the
well is dry and `pumping` becomes `False`, otherwise it becomes `True`. -/
def FarmerAgent.stepAgent (wt_depth_2d : List (List ℚ)) (a : FarmerAgent) : FarmerAgent :=
  if idx2d wt_depth_2d a.pos.1 a.pos.2 ≥ a.well_depth then
    { a with pumping := false }
  else
    { a with pumping := true }

/-- Point update of an agent population keyed by `unique_id`. -/
def updateAgent (pop : ℕ → FarmerAgent) (i : ℕ) (a : FarmerAgent) : ℕ → FarmerAgent :=
  fun j => if j = i then a else pop j

/-- Mesa `RandomActivation.step`: activate the agents one at a time in the
order given by `order` (a shuffle of the ids); each activation replaces
that agent by `FarmerAgent.stepAgent` of its current state. -/
def scheduleStep (wt : List (List ℚ)) (order : List ℕ) (pop : ℕ → FarmerAgent) :
    ℕ → FarmerAgent :=
  order.foldl (fun p i => updateAgent p i (FarmerAgent.stepAgent wt (p i))) pop

/-- State of `FarmerModel`: agent count, Mesa `MultiGrid` dimensions, the
flat depth-to-water-table array the model was handed, the `wt_depth_2d`
attribute set during `step`, and the scheduled agents keyed by id. -/
structure FarmerModel where
  num_agents : ℕ
  width : ℕ
  height : ℕ
  depth_to_water_table : List ℚ
  wt_depth_2d : List (List ℚ)
  agents : ℕ → FarmerAgent

/-- `FarmerModel.__init__`: place each of the `N` agents at
`(randrange(width - 2) + 1, randrange(width - 2) + 1)` — both coordinates
drawn from `width`, not `height` — with the given well depth and
`pumping = True`.  The random draws are supplied as `randX`, `randY`;
`randrange (width - 2)` is modelled by reduction mod `width - 2`. -/
def FarmerModel.init (N width height : ℕ) (well_depth : ℚ)
    (depth_to_water_table : List ℚ) (randX randY : ℕ → ℕ) : FarmerModel :=
  { num_agents := N
    width := width
    height := height
    depth_to_water_table := depth_to_water_table
    wt_depth_2d := []
    agents := fun i =>
      { unique_id := i
        pos := (randX i % (width - 2) + 1, randY i % (width - 2) + 1)
        well_depth := well_depth
        pumping := true } }

/-- First line of `FarmerModel.step`:
`self.wt_depth_2d = self.depth_to_water_table.reshape((self.grid.width, self.grid.height))`. -/
def FarmerModel.feed (m : FarmerModel) : Option FarmerModel :=
  (reshape2d m.depth_to_water_table m.width m.height).map fun wt =>
    { m with wt_depth_2d := wt }

/-- Second line of `FarmerModel.step`: `self.schedule.step()` under
activation order `order`. -/
def FarmerModel.agentStep (order : List ℕ) (m : FarmerModel) : FarmerModel :=
  { m with agents := scheduleStep m.wt_depth_2d order m.agents }

/-- `FarmerModel.step`: reshape the shared array into `wt_depth_2d`, then
run the schedule.  `none` models the numpy reshape exception. -/
def FarmerModel.step (order : List ℕ) (m : FarmerModel) : Option FarmerModel :=
  (FarmerModel.feed m).map (FarmerModel.agentStep order)

lemma stepAgent_pos (wt : List (List ℚ)) (a : FarmerAgent) :
    (FarmerAgent.stepAgent wt a).pos = a.pos := by
  unfold FarmerAgent.stepAgent; split <;> rfl

lemma stepAgent_well_depth (wt : List (List ℚ)) (a : FarmerAgent) :
    (FarmerAgent.stepAgent wt a).well_depth = a.well_depth := by
  unfold FarmerAgent.stepAgent; split <;> rfl

lemma stepAgent_unique_id (wt : List (List ℚ)) (a : FarmerAgent) :
    (FarmerAgent.stepAgent wt a).unique_id = a.unique_id := by
  unfold FarmerAgent.stepAgent; split <;> rfl

lemma stepAgent_idem (wt : List (List ℚ)) (a : FarmerAgent) :
    FarmerAgent.stepAgent wt (FarmerAgent.stepAgent wt a) =
      FarmerAgent.stepAgent wt a := by
  unfold FarmerAgent.stepAgent
  split <;> simp_all

/-- The net effect of one schedule pass on agent `i`: stepped once if it is
in the activation order, untouched otherwise (re-activation is harmless
because `stepAgent` is idempotent). -/
lemma scheduleStep_apply (wt : List (List ℚ)) (order : List ℕ)
    (pop : ℕ → FarmerAgent) (i : ℕ) :
    scheduleStep wt order pop i =
      if i ∈ order then FarmerAgent.stepAgent wt (pop i) else pop i := by
  induction order generalizing pop with
  | nil => simp [scheduleStep]
  | cons j rest ih =>
      show scheduleStep wt rest (updateAgent pop j (FarmerAgent.stepAgent wt (pop j))) i = _
      rw [ih]
      by_cases hij : i = j
      · subst hij
        by_cases hmem : i ∈ rest <;>
          simp [updateAgent, hmem, stepAgent_idem]
      · by_cases hmem : i ∈ rest <;>
          simp [updateAgent, hij, hmem]

lemma step_agents (m m' : FarmerModel) (order : List ℕ) (i : ℕ)
    (hstep : FarmerModel.step order m = some m') (hi : i ∈ order) :
    m'.agents i = FarmerAgent.stepAgent m'.wt_depth_2d (m.agents i) := by
  cases hR : reshape2d m.depth_to_water_table m.width m.height with
  | none => simp [FarmerModel.step, FarmerModel.feed, hR] at hstep
  | some R =>
      simp [FarmerModel.step, FarmerModel.feed, hR] at hstep
      subst hstep
      simp [FarmerModel.agentStep, scheduleStep_apply, hi]

/-- C1: an activated farmer whose observed depth-to-water-table is at least
its well depth ends the step with `pumping = false`; one whose observed
depth is strictly below its well depth ends with `pumping = true`,
regardless of the flag's prior value. -/
theorem farmer_step_dry_wet (m : FarmerModel) (order : List ℕ) (i : ℕ)
    (m' : FarmerModel)
    (hstep : FarmerModel.step order m = some m') (hi : i ∈ order) :
    (idx2d m'.wt_depth_2d (m.agents i).pos.1 (m.agents i).pos.2 ≥ (m.agents i).well_depth →
      (m'.agents i).pumping = false) ∧
    (idx2d m'.wt_depth_2d (m.agents i).pos.1 (m.agents i).pos.2 < (m.agents i).well_depth →
      (m'.agents i).pumping = true) := by
  have h := step_agents m m' order i hstep hi
  rw [h]
  unfold FarmerAgent.stepAgent
  constructor
  · intro hge
    simp [hge]
  · intro hlt
    simp [not_le.mpr hlt]

/-- The concrete C1/C2 model: a 3×3 agent grid holding one agent at (1, 1)
with well depth 5 and an everywhere-constant observed field `d`. -/
def farmers3x3 (d : ℚ) : FarmerModel :=
  FarmerModel.init 1 3 3 5 (List.replicate 9 d) (fun _ => 0) (fun _ => 0)

/-- Result of one step of the concrete model (the single agent activates). -/
def farmers3x3After (d : ℚ) : FarmerModel :=
  (FarmerModel.step [0] (farmers3x3 d)).getD (farmers3x3 d)

/-- Witness for C1 at the concrete 3×3 scenario with observed depth 6. -/
theorem farmer_step_dry_wet_witness :
    FarmerModel.step [0] (farmers3x3 6) = some (farmers3x3After 6) ∧ 0 ∈ [0] ∧
    ((idx2d (farmers3x3After 6).wt_depth_2d ((farmers3x3 6).agents 0).pos.1
        ((farmers3x3 6).agents 0).pos.2 ≥ ((farmers3x3 6).agents 0).well_depth →
      ((farmers3x3After 6).agents 0).pumping = false) ∧
     (idx2d (farmers3x3After 6).wt_depth_2d ((farmers3x3 6).agents 0).pos.1
        ((farmers3x3 6).agents 0).pos.2 < ((farmers3x3 6).agents 0).well_depth →
      ((farmers3x3After 6).agents 0).pumping = true)) :=
  ⟨rfl, by decide,
    farmer_step_dry_wet (farmers3x3 6) [0] 0 (farmers3x3After 6) rfl (by decide)⟩

/-- C2: in the literal 3×3 scenario (one agent at (1, 1), well depth 5),
one model step with observed depth 6 everywhere leaves the agent not
pumping, and one model step with observed depth 4 everywhere leaves it
pumping. -/
theorem farmer_scenario_3x3 :
    ((farmers3x3 6).agents 0).pos = (1, 1) ∧
    (FarmerModel.step [0] (farmers3x3 6)).map (fun m => (m.agents 0).pumping) =
      some false ∧
    (FarmerModel.step [0] (farmers3x3 4)).map (fun m => (m.agents 0).pumping) =
      some true := by
  refine ⟨by decide, ?_, ?_⟩ <;> decide

/-- Agent kinds of the wolf–sheep–grass Mesa example; a `GrassPatch`
carries its `fully_grown` flag. -/
inductive WSAgent where
  | grassPatch (fully_grown : Bool)
  | sheep
  | wolf
deriving DecidableEq

/-- The Mesa `WolfSheep` model as seen by the notebook: grid dimensions and
the (content, x, y) cell contents that `coord_iter` exposes. -/
structure WolfSheep where
  width : ℕ
  height : ℕ
  cells : ℕ → ℕ → List WSAgent

/-- `agent.fully_grown = False` applied to grass patches only. -/
def damageGrass : WSAgent → WSAgent
  | .grassPatch _ => .grassPatch false
  | a => a

/-- `limit_grass_by_soil`: reshape the flat soil array to the model grid's
(width, height) shape, then set `fully_grown = False` on every grass patch
in a cell whose soil is thinner than `min_soil_depth`. -/
def limit_grass_by_soil (ws : WolfSheep) (soil : List ℚ) (min_soil_depth : ℚ) :
    Option WolfSheep :=
  (reshape2d soil ws.width ws.height).map fun soilmatrix =>
    { ws with cells := fun x y =>
        if x < ws.width ∧ y < ws.height ∧ idx2d soilmatrix x y < min_soil_depth then
          (ws.cells x y).map damageGrass
        else
          ws.cells x y }

/-- C3: a successful reshape of the depth-to-water-table array to the agent
grid's shape yields exactly `width` rows of `height` cells each —
`width * height` cells in total — and under the matching-dimensions
precondition neither `FarmerModel.step` nor `limit_grass_by_soil` can fail
its reshape. -/
theorem reshape_cell_count (m : FarmerModel) (order : List ℕ)
    (rows : List (List ℚ)) (ws : WolfSheep) (soil : List ℚ) (d : ℚ)
    (hr : reshape2d m.depth_to_water_table m.width m.height = some rows)
    (hl : m.depth_to_water_table.length = m.width * m.height)
    (hsoil : soil.length = ws.width * ws.height) :
    rows.length = m.width ∧
    rows.map List.length = List.replicate m.width m.height ∧
    (rows.map List.length).sum = m.width * m.height ∧
    (FarmerModel.step order m).isSome ∧
    (limit_grass_by_soil ws soil d).isSome := by
  have hrows : rows =
      (List.range m.width).map fun x =>
        (List.range m.height).map fun y =>
          m.depth_to_water_table.getD (x * m.height + y) 0 := by
    unfold reshape2d at hr
    rw [if_pos hl] at hr
    exact (Option.some_injective _ hr).symm
  have hmap : rows.map List.length = List.replicate m.width m.height := by
    subst hrows
    rw [List.map_map]
    have : (List.length ∘ fun x =>
        (List.range m.height).map fun y =>
          m.depth_to_water_table.getD (x * m.height + y) 0) =
        fun _ => m.height := by
      funext x
      simp
    rw [this, List.map_const', List.length_range]
  refine ⟨?_, hmap, ?_, ?_, ?_⟩
  · subst hrows; simp
  · rw [hmap]; simp [List.sum_replicate, smul_eq_mul]
  · simp [FarmerModel.step, FarmerModel.feed, reshape2d, hl]
  · simp [limit_grass_by_soil, reshape2d, hsoil]

/-- Witness for C3: a 2×3 agent grid with a 6-entry field. -/
theorem reshape_cell_count_witness :
    reshape2d (FarmerModel.init 0 2 3 5 (List.replicate 6 0) id id).depth_to_water_table
        (FarmerModel.init 0 2 3 5 (List.replicate 6 0) id id).width
        (FarmerModel.init 0 2 3 5 (List.replicate 6 0) id id).height =
      some [[0, 0, 0], [0, 0, 0]] ∧
    (FarmerModel.init 0 2 3 5 (List.replicate 6 0) id id).depth_to_water_table.length =
      (FarmerModel.init 0 2 3 5 (List.replicate 6 0) id id).width *
        (FarmerModel.init 0 2 3 5 (List.replicate 6 0) id id).height ∧
    (List.replicate 6 (0 : ℚ)).length = (WolfSheep.mk 2 3 fun _ _ => []).width *
      (WolfSheep.mk 2 3 fun _ _ => []).height ∧
    ([[(0 : ℚ), 0, 0], [0, 0, 0]].map List.length).sum =
      (FarmerModel.init 0 2 3 5 (List.replicate 6 0) id id).width *
        (FarmerModel.init 0 2 3 5 (List.replicate 6 0) id id).height ∧
    (FarmerModel.step [] (FarmerModel.init 0 2 3 5 (List.replicate 6 0) id id)).isSome ∧
    (limit_grass_by_soil (WolfSheep.mk 2 3 fun _ _ => []) (List.replicate 6 0) 1).isSome :=
  ⟨by decide, by decide, by decide,
    ((reshape_cell_count (FarmerModel.init 0 2 3 5 (List.replicate 6 0) id id) []
        [[0, 0, 0], [0, 0, 0]] (WolfSheep.mk 2 3 fun _ _ => [])
        (List.replicate 6 0) 1 (by decide) (by decide) (by decide)).2.2).1,
    ((reshape_cell_count (FarmerModel.init 0 2 3 5 (List.replicate 6 0) id id) []
        [[0, 0, 0], [0, 0, 0]] (WolfSheep.mk 2 3 fun _ _ => [])
        (List.replicate 6 0) 1 (by decide) (by decide) (by decide)).2.2).2.1,
    ((reshape_cell_count (FarmerModel.init 0 2 3 5 (List.replicate 6 0) id id) []
        [[0, 0, 0], [0, 0, 0]] (WolfSheep.mk 2 3 fun _ _ => [])
        (List.replicate 6 0) 1 (by decide) (by decide) (by decide)).2.2).2.2⟩

/-- Mesa `grid.coord_iter()`: every (x, y) cell coordinate of a
width × height grid. -/
def coordIter (w h : ℕ) : List (ℕ × ℕ) :=
  (List.range w).flatMap fun x => (List.range h).map fun y => (x, y)

/-- In-place 2-D array write `rows[x][y] = v`. -/
def set2d {α : Type} (rows : List (List α)) (x y : ℕ) (v : α) : List (List α) :=
  rows.set x ((rows.getD x []).set y v)

/-- 2-D read on an integer array. -/
def get2dN (rows : List (List ℕ)) (x y : ℕ) : ℕ :=
  (rows.getD x []).getD y 0

/-- `np.zeros((nr, nc), dtype=int)`. -/
def zeros2dN (nr nc : ℕ) : List (List ℕ) :=
  List.replicate nr (List.replicate nc 0)

/-- `np.zeros((nr, nc))`. -/
def zeros2dQ (nr nc : ℕ) : List (List ℚ) :=
  List.replicate nr (List.replicate nc 0)

/-- The `cell_content` part of a `coord_iter` item: the agents of the model
that sit at cell (x, y). -/
def cellContent (m : FarmerModel) (x y : ℕ) : List FarmerAgent :=
  ((List.range m.num_agents).map m.agents).filter fun a => a.pos = (x, y)

/-- Body of the `get_well_count` loop: record the cell's well count, bump
the pumping-well count once per pumping agent, and hand the model on
untouched. -/
def gwcStep (acc : (List (List ℕ) × List (List ℕ)) × FarmerModel) (xy : ℕ × ℕ) :
    (List (List ℕ) × List (List ℕ)) × FarmerModel :=
  ((set2d acc.1.1 xy.1 xy.2 (cellContent acc.2 xy.1 xy.2).length,
    (cellContent acc.2 xy.1 xy.2).foldl
      (fun p a => if a.pumping then set2d p xy.1 xy.2 (get2dN p xy.1 xy.2 + 1) else p)
      acc.1.2),
   acc.2)

/-- `get_well_count`: zero two (nr, nc) integer arrays, then walk
`coord_iter`, filling in per-cell well counts and pumping-well counts.
The model is threaded through the loop the way the Python reference is. -/
def get_well_count (m : FarmerModel) (nr nc : ℕ) :
    (List (List ℕ) × List (List ℕ)) × FarmerModel :=
  (coordIter m.width m.height).foldl gwcStep ((zeros2dN nr nc, zeros2dN nr nc), m)

/-- Body of the `generate_grass_map` loop: write 2 for a fully grown grass
patch and 1 for a damaged one, later agents in the cell overwriting
earlier ones; non-grass agents are skipped; the model is handed on. -/
def ggmStep (acc : List (List ℚ) × WolfSheep) (xy : ℕ × ℕ) :
    List (List ℚ) × WolfSheep :=
  ((acc.2.cells xy.1 xy.2).foldl
    (fun g a =>
      match a with
      | WSAgent.grassPatch fg => set2d g xy.1 xy.2 (if fg then 2 else 1)
      | _ => g)
    acc.1,
   acc.2)

/-- `generate_grass_map`: zero a (width, height) array, then walk
`coord_iter` classifying each cell's grass patch. -/
def generate_grass_map (ws : WolfSheep) : List (List ℚ) × WolfSheep :=
  (coordIter ws.width ws.height).foldl ggmStep (zeros2dQ ws.width ws.height, ws)

lemma foldl_snd {δ μ γ : Type} (F : δ × μ → γ → δ × μ)
    (hF : ∀ acc xy, (F acc xy).2 = acc.2) (l : List γ) :
    ∀ acc : δ × μ, (l.foldl F acc).2 = acc.2 := by
  induction l with
  | nil => intro acc; rfl
  | cons x xs ih => intro acc; rw [List.foldl_cons, ih, hF]

lemma get_well_count_model (m : FarmerModel) (nr nc : ℕ) :
    (get_well_count m nr nc).2 = m :=
  foldl_snd gwcStep (fun _ _ => rfl) (coordIter m.width m.height) _

lemma generate_grass_map_model (ws : WolfSheep) :
    (generate_grass_map ws).2 = ws :=
  foldl_snd ggmStep (fun _ _ => rfl) (coordIter ws.width ws.height) _

/-- C5: the two aggregations are idempotent across zero agent steps —
running `get_well_count` (resp. `generate_grass_map`) on the state left
behind by a previous run, with no agent touched in between, returns the
very same count arrays (resp. grass map). -/
theorem aggregation_idempotent (m : FarmerModel) (nr nc : ℕ) (ws : WolfSheep) :
    (get_well_count ((get_well_count m nr nc).2) nr nc).1 =
      (get_well_count m nr nc).1 ∧
    (generate_grass_map ((generate_grass_map ws).2)).1 =
      (generate_grass_map ws).1 := by
  constructor
  · rw [get_well_count_model]
  · rw [generate_grass_map_model]

/-- C6: the aggregations read but never mutate the agent population —
after `get_well_count` (resp. `generate_grass_map`) the model is exactly
the one passed in; in particular every agent keeps its id, position, and
flags. -/
theorem aggregation_frame (m : FarmerModel) (nr nc : ℕ) (ws : WolfSheep)
    (i x y : ℕ) :
    (get_well_count m nr nc).2 = m ∧
    ((get_well_count m nr nc).2.agents i).unique_id = (m.agents i).unique_id ∧
    ((get_well_count m nr nc).2.agents i).pos = (m.agents i).pos ∧
    ((get_well_count m nr nc).2.agents i).pumping = (m.agents i).pumping ∧
    (generate_grass_map ws).2 = ws ∧
    (generate_grass_map ws).2.cells x y = ws.cells x y := by
  refine ⟨get_well_count_model m nr nc, ?_, ?_, ?_, generate_grass_map_model ws, ?_⟩
  · rw [get_well_count_model]
  · rw [get_well_count_model]
  · rw [get_well_count_model]
  · rw [generate_grass_map_model]

lemma step_pos (m m' : FarmerModel) (order : List ℕ) (i : ℕ)
    (hstep : FarmerModel.step order m = some m') :
    (m'.agents i).pos = (m.agents i).pos := by
  cases hR : reshape2d m.depth_to_water_table m.width m.height with
  | none => simp [FarmerModel.step, FarmerModel.feed, hR] at hstep
  | some R =>
      simp [FarmerModel.step, FarmerModel.feed, hR] at hstep
      subst hstep
      simp only [FarmerModel.agentStep, scheduleStep_apply]
      split <;> simp [stepAgent_pos]

/-- C9: the outcome of one `FarmerModel.step` does not depend on the
(random) activation order: under any two activation orders that are
permutations of one another, every agent ends the step with the same
pumping flag. -/
theorem step_order_independent (m m1 m2 : FarmerModel) (o1 o2 : List ℕ) (i : ℕ)
    (hperm : o1.Perm o2)
    (h1 : FarmerModel.step o1 m = some m1)
    (h2 : FarmerModel.step o2 m = some m2) :
    (m1.agents i).pumping = (m2.agents i).pumping := by
  cases hR : reshape2d m.depth_to_water_table m.width m.height with
  | none => simp [FarmerModel.step, FarmerModel.feed, hR] at h1
  | some R =>
      simp [FarmerModel.step, FarmerModel.feed, hR] at h1 h2
      subst h1; subst h2
      simp only [FarmerModel.agentStep, scheduleStep_apply]
      by_cases hmem : i ∈ o1
      · simp [hmem, hperm.mem_iff.mp hmem]
      · have hmem2 : i ∉ o2 := fun h => hmem (hperm.mem_iff.mpr h)
        simp [hmem, hmem2]

/-- Concrete model for the C9 witness: two agents on a 4×4 grid. -/
def farmersC9 : FarmerModel :=
  FarmerModel.init 2 4 4 5 (List.replicate 16 6) (fun i => i) (fun i => i)

/-- Witness for C9: activation orders [0, 1] and [1, 0]. -/
theorem step_order_independent_witness :
    List.Perm [0, 1] [1, 0] ∧
    FarmerModel.step [0, 1] farmersC9 =
      some ((FarmerModel.step [0, 1] farmersC9).getD farmersC9) ∧
    FarmerModel.step [1, 0] farmersC9 =
      some ((FarmerModel.step [1, 0] farmersC9).getD farmersC9) ∧
    (((FarmerModel.step [0, 1] farmersC9).getD farmersC9).agents 0).pumping =
      (((FarmerModel.step [1, 0] farmersC9).getD farmersC9).agents 0).pumping :=
  ⟨by decide, rfl, rfl,
    step_order_independent farmersC9
      ((FarmerModel.step [0, 1] farmersC9).getD farmersC9)
      ((FarmerModel.step [1, 0] farmersC9).getD farmersC9)
      [0, 1] [1, 0] 0 (by decide) rfl rfl⟩

/-- The six phases of the coupling pattern, in the spec's lettering:
advance (a), derive (b), feed (c), agentStep (d), aggregate (e),
writeForcing (f). -/
inductive Phase where
  | advance
  | derive
  | feed
  | agentStep
  | aggregate
  | writeForcing
deriving DecidableEq

/-- Run a fallible step `n` times, stopping at the first error — the
`for i in range(n)` loop with exceptions modelled in `Except`. -/
def iterE {ε σ : Type} (f : σ → Except ε σ) : ℕ → σ → Except ε σ
  | 0, s => Except.ok s
  | n + 1, s =>
    match f s with
    | Except.error e => Except.error e
    | Except.ok s' => iterE f n s'

/-- `int(365.25 * 3600.0 * 24 / dt)` of `run_for_one_year` (Python `int`
truncates; for `dt > 0` that is the floor). -/
def num_iter_per_year (dt : ℚ) : ℕ :=
  (⌊(365.25 : ℚ) * 3600.0 * 24 / dt⌋).toNat

/-- `run_for_one_year(gdp, dt)`: call the solver's `run_one_step(dt)`
`num_iter` times; the solver is the opaque external `f`. -/
def run_for_one_yearE {ε σ : Type} (f : σ → Except ε σ) (dt : ℚ) (s : σ) :
    Except ε σ :=
  iterE f (num_iter_per_year dt) s

/-- Landlab-side state of the groundwater notebook: the four node fields
the coupling loop touches. -/
structure GWState where
  elev : List ℚ
  wt : List ℚ
  depth_to_wt : List ℚ
  recharge : List ℚ

/-- Full state threaded through the groundwater coupling loop: the Landlab
fields, the Mesa farmer model, and the loop-local pumping-well-count
array. -/
structure CoupledState where
  gw : GWState
  fm : FarmerModel
  pumping_well_count : List (List ℕ)

/-- Run a list of labelled phases in sequence, stopping at the first
error; on success also report the list of phases that executed. -/
def runPhasesE {ε σ : Type} :
    List (Phase × (σ → Except ε σ)) → σ → Except ε (σ × List Phase)
  | [], s => Except.ok (s, [])
  | (p, f) :: rest, s =>
    match f s with
    | Except.error e => Except.error e
    | Except.ok s' => (runPhasesE rest s').map fun r => (r.1, p :: r.2)

/-- Body of the groundwater notebook's main loop, one labelled phase per
statement group:
`run_for_one_year(gdp, dt)`; `depth_to_wt[:] = elev - wt`; the shared
array handed to the farmer model and reshaped into `wt_depth_2d`;
`self.schedule.step()`; `get_well_count(farmer_model)`;
`recharge[:] = -(pumping_rate / (dx * dx)) * pumping_well_count.flatten()`.
The Landlab solver `gdpStep` is the opaque external. -/
def couplePhases (gdpStep : GWState → Except String GWState)
    (dt pumping_rate dx : ℚ) (order : List ℕ) (nr nc : ℕ) :
    List (Phase × (CoupledState → Except String CoupledState)) :=
  [(Phase.advance, fun st =>
      (run_for_one_yearE gdpStep dt st.gw).map fun g => { st with gw := g }),
   (Phase.derive, fun st =>
      Except.ok { st with gw :=
        { st.gw with
            depth_to_wt := List.zipWith (fun e w => e - w) st.gw.elev st.gw.wt } }),
   (Phase.feed, fun st =>
      match FarmerModel.feed { st.fm with depth_to_water_table := st.gw.depth_to_wt } with
      | some fm' => Except.ok { st with fm := fm' }
      | none => Except.error "cannot reshape array"),
   (Phase.agentStep, fun st =>
      Except.ok { st with fm := FarmerModel.agentStep order st.fm }),
   (Phase.aggregate, fun st =>
      Except.ok { st with
        fm := (get_well_count st.fm nr nc).2
        pumping_well_count := (get_well_count st.fm nr nc).1.2 }),
   (Phase.writeForcing, fun st =>
      let rech := st.pumping_well_count.flatten.map
        (fun c => -(pumping_rate / (dx * dx)) * (c : ℚ))
      Except.ok { st with gw := { st.gw with recharge := rech } })]

/-- One iteration of the groundwater coupling loop, with its phase trace. -/
def coupleTrace (gdpStep : GWState → Except String GWState)
    (dt pumping_rate dx : ℚ) (order : List ℕ) (nr nc : ℕ)
    (st : CoupledState) : Except String (CoupledState × List Phase) :=
  runPhasesE (couplePhases gdpStep dt pumping_rate dx order nr nc) st

/-- One iteration of the groundwater coupling loop. -/
def coupleBody (gdpStep : GWState → Except String GWState)
    (dt pumping_rate dx : ℚ) (order : List ℕ) (nr nc : ℕ)
    (st : CoupledState) : Except String CoupledState :=
  (coupleTrace gdpStep dt pumping_rate dx order nr nc st).map Prod.fst

/-- `for i in range(run_duration_yrs)` over the coupling body. -/
def couplingLoop (gdpStep : GWState → Except String GWState)
    (dt pumping_rate dx : ℚ) (order : List ℕ) (nr nc : ℕ) (n : ℕ)
    (st : CoupledState) : Except String CoupledState :=
  iterE (coupleBody gdpStep dt pumping_rate dx order nr nc) n st

/-- The coupling loop instrumented with its per-iteration phase traces. -/
def couplingLoopTraced (gdpStep : GWState → Except String GWState)
    (dt pumping_rate dx : ℚ) (order : List ℕ) (nr nc : ℕ) :
    ℕ → CoupledState → Except String (CoupledState × List (List Phase))
  | 0, st => Except.ok (st, [])
  | n + 1, st =>
    match coupleTrace gdpStep dt pumping_rate dx order nr nc st with
    | Except.error e => Except.error e
    | Except.ok r =>
      (couplingLoopTraced gdpStep dt pumping_rate dx order nr nc n r.1).map
        fun q => (q.1, r.2 :: q.2)

/-- The spec's phase order (a)–(f). -/
def sixPhases : List Phase :=
  [Phase.advance, Phase.derive, Phase.feed, Phase.agentStep,
   Phase.aggregate, Phase.writeForcing]

/-- Landlab/Mesa state threaded through the wolf–sheep–grass / soil-creep
two-way loop. -/
structure WSGState where
  ws : WolfSheep
  elev : List ℚ
  prior_elev : List ℚ
  soil : List ℚ
  creep_coef : List ℚ
  gm : List (List ℚ)

/-- Body of the wolf–sheep–grass two-way loop, one labelled phase per
statement group, in the order the source executes them:
`gm = generate_grass_map(ws)`; the two masked `creep_coef` writes plus
`creep_coef *= 1.0 - np.exp(-soil / hstar)`;
`prior_elev[:] = elev; diffuser.run_one_step(dt)`;
`soil += elev - prior_elev`; `limit_grass_by_soil(ws, soil, ...)`;
`ws.step()`.  `diffStep` (Landlab `LinearDiffuser`), `expFn` (`np.exp`)
and `wsStep` (the Mesa wolf–sheep model's own step) are the opaque
externals. -/
def wsgPhases (diffStep : ℚ → List ℚ → List ℚ → Except String (List ℚ))
    (expFn : ℚ → ℚ) (wsStep : WolfSheep → Except String WolfSheep)
    (dt fast_creep slow_creep hstar min_depth_for_grass : ℚ) :
    List (Phase × (WSGState → Except String WSGState)) :=
  [(Phase.aggregate, fun st =>
      Except.ok { st with
        ws := (generate_grass_map st.ws).2
        gm := (generate_grass_map st.ws).1 }),
   (Phase.writeForcing, fun st =>
      let masked := List.zipWith
        (fun c g => if g = 1 then fast_creep else if g = 2 then slow_creep else c)
        st.creep_coef st.gm.flatten
      let damped := List.zipWith (fun c s => c * (1 - expFn (-s / hstar))) masked st.soil
      Except.ok { st with creep_coef := damped }),
   (Phase.advance, fun st =>
      (diffStep dt st.creep_coef st.elev).map fun e =>
        { st with prior_elev := st.elev, elev := e }),
   (Phase.derive, fun st =>
      let soilNew := List.zipWith (· + ·) st.soil
        (List.zipWith (· - ·) st.elev st.prior_elev)
      Except.ok { st with soil := soilNew }),
   (Phase.feed, fun st =>
      match limit_grass_by_soil st.ws st.soil min_depth_for_grass with
      | some ws' => Except.ok { st with ws := ws' }
      | none => Except.error "cannot reshape array"),
   (Phase.agentStep, fun st =>
      (wsStep st.ws).map fun w => { st with ws := w })]

/-- The phase order the wolf–sheep–grass loop actually executes. -/
def wsgSixPhases : List Phase :=
  [Phase.aggregate, Phase.writeForcing, Phase.advance, Phase.derive,
   Phase.feed, Phase.agentStep]

/-- C10: at initialization every agent's coordinates both lie in
`[1, width − 2]` (both bounds computed from `width`, not `height`), a step
never moves an agent, on a square grid no agent sits on the perimeter, and
on a non-square grid (width 10, height 3) the y-coordinate can land
outside the grid's own interior (here y = 8 > height − 2 = 1). -/
theorem agent_placement (N width height : ℕ) (wd : ℚ) (field : List ℚ)
    (rX rY : ℕ → ℕ) (i : ℕ) (order : List ℕ) (m' : FarmerModel)
    (hw : 3 ≤ width)
    (hstep : FarmerModel.step order (FarmerModel.init N width height wd field rX rY) =
      some m') :
    (1 ≤ ((FarmerModel.init N width height wd field rX rY).agents i).pos.1 ∧
      ((FarmerModel.init N width height wd field rX rY).agents i).pos.1 ≤ width - 2 ∧
      1 ≤ ((FarmerModel.init N width height wd field rX rY).agents i).pos.2 ∧
      ((FarmerModel.init N width height wd field rX rY).agents i).pos.2 ≤ width - 2) ∧
    (m'.agents i).pos = ((FarmerModel.init N width height wd field rX rY).agents i).pos ∧
    (width = height →
      ((FarmerModel.init N width height wd field rX rY).agents i).pos.1 ≠ 0 ∧
      ((FarmerModel.init N width height wd field rX rY).agents i).pos.1 ≠ width - 1 ∧
      ((FarmerModel.init N width height wd field rX rY).agents i).pos.2 ≠ 0 ∧
      ((FarmerModel.init N width height wd field rX rY).agents i).pos.2 ≠ height - 1) ∧
    ((FarmerModel.init 1 10 3 wd field rX (fun _ => 7)).agents 0).pos.2 = 8 ∧
    ¬ ((FarmerModel.init 1 10 3 wd field rX (fun _ => 7)).agents 0).pos.2 ≤ 3 - 2 := by
  have hxmod : rX i % (width - 2) < width - 2 := Nat.mod_lt _ (by omega)
  have hymod : rY i % (width - 2) < width - 2 := Nat.mod_lt _ (by omega)
  have hbounds :
      1 ≤ ((FarmerModel.init N width height wd field rX rY).agents i).pos.1 ∧
      ((FarmerModel.init N width height wd field rX rY).agents i).pos.1 ≤ width - 2 ∧
      1 ≤ ((FarmerModel.init N width height wd field rX rY).agents i).pos.2 ∧
      ((FarmerModel.init N width height wd field rX rY).agents i).pos.2 ≤ width - 2 := by
    simp only [FarmerModel.init]
    omega
  refine ⟨hbounds, step_pos _ _ _ _ hstep, ?_, ?_, ?_⟩
  · intro hsq
    subst hsq
    omega
  · simp [FarmerModel.init]
  · simp [FarmerModel.init]

/-- Witness for C10: one agent on a 4×4 grid with a 16-entry field. -/
theorem agent_placement_witness :
    3 ≤ 4 ∧
    FarmerModel.step [0] (FarmerModel.init 1 4 4 5 (List.replicate 16 0)
        (fun _ => 0) (fun _ => 0)) =
      some ((FarmerModel.step [0] (FarmerModel.init 1 4 4 5 (List.replicate 16 0)
        (fun _ => 0) (fun _ => 0))).getD
          (FarmerModel.init 1 4 4 5 (List.replicate 16 0) (fun _ => 0) (fun _ => 0))) ∧
    (((FarmerModel.step [0] (FarmerModel.init 1 4 4 5 (List.replicate 16 0)
        (fun _ => 0) (fun _ => 0))).getD
          (FarmerModel.init 1 4 4 5 (List.replicate 16 0) (fun _ => 0) (fun _ => 0))).agents
        0).pos =
      ((FarmerModel.init 1 4 4 5 (List.replicate 16 0) (fun _ => 0) (fun _ => 0)).agents
        0).pos :=
  ⟨by decide, rfl,
    (agent_placement 1 4 4 5 (List.replicate 16 0) (fun _ => 0) (fun _ => 0) 0 [0]
      ((FarmerModel.step [0] (FarmerModel.init 1 4 4 5 (List.replicate 16 0)
        (fun _ => 0) (fun _ => 0))).getD
          (FarmerModel.init 1 4 4 5 (List.replicate 16 0) (fun _ => 0) (fun _ => 0)))
      (by decide) rfl).2.1⟩

lemma runPhasesE_trace {ε σ : Type} (ps : List (Phase × (σ → Except ε σ))) :
    ∀ (s : σ) (r : σ × List Phase),
      runPhasesE ps s = Except.ok r → r.2 = ps.map Prod.fst := by
  induction ps with
  | nil =>
      intro s r h
      simp only [runPhasesE] at h
      injection h with h2
      rw [← h2]
      rfl
  | cons pf rest ih =>
      obtain ⟨p, f⟩ := pf
      intro s r h
      simp only [runPhasesE] at h
      split at h
      · simp at h
      · next s' heq =>
          cases hrest : runPhasesE rest s' with
          | error e => rw [hrest] at h; simp [Except.map] at h
          | ok r' =>
              rw [hrest] at h
              simp only [Except.map] at h
              injection h with h2
              rw [← h2]
              simp [ih s' r' hrest]

lemma coupleTrace_trace (gdpStep : GWState → Except String GWState)
    (dt pr dx : ℚ) (order : List ℕ) (nr nc : ℕ) (st : CoupledState)
    (r : CoupledState × List Phase)
    (h : coupleTrace gdpStep dt pr dx order nr nc st = Except.ok r) :
    r.2 = sixPhases :=
  runPhasesE_trace (couplePhases gdpStep dt pr dx order nr nc) st r h

lemma couplingLoopTraced_traces (gdpStep : GWState → Except String GWState)
    (dt pr dx : ℚ) (order : List ℕ) (nr nc : ℕ) :
    ∀ (n : ℕ) (st : CoupledState) (r : CoupledState × List (List Phase)),
      couplingLoopTraced gdpStep dt pr dx order nr nc n st = Except.ok r →
        r.2 = List.replicate n sixPhases := by
  intro n
  induction n with
  | zero =>
      intro st r h
      simp only [couplingLoopTraced] at h
      injection h with h2
      rw [← h2]
      rfl
  | succ m ih =>
      intro st r h
      simp only [couplingLoopTraced] at h
      split at h
      · simp at h
      · next p heq =>
          cases hrec : couplingLoopTraced gdpStep dt pr dx order nr nc m p.1 with
          | error e => rw [hrec] at h; simp [Except.map] at h
          | ok q =>
              rw [hrec] at h
              simp only [Except.map] at h
              injection h with h2
              rw [← h2]
              simp [coupleTrace_trace gdpStep dt pr dx order nr nc st p heq,
                ih p.1 q hrec, List.replicate_succ]

/-- C4 (amended): every iteration of the groundwater notebook's coupling
loop executes the six phases in the order advance, derive, feed,
agentStep, aggregate, writeForcing; every iteration of the
wolf–sheep–grass two-way loop executes the same six phases but rotated,
beginning with aggregation: aggregate, writeForcing, advance, derive,
feed, agentStep. -/
theorem coupling_phase_order (gdpStep : GWState → Except String GWState)
    (dt pr dx : ℚ) (order : List ℕ) (nr nc n : ℕ) (st : CoupledState)
    (r : CoupledState × List (List Phase)) (tr : List Phase)
    (diffStep : ℚ → List ℚ → List ℚ → Except String (List ℚ)) (expFn : ℚ → ℚ)
    (wsStep : WolfSheep → Except String WolfSheep)
    (dt2 fc sc hstar md : ℚ) (st2 : WSGState) (r2 : WSGState × List Phase)
    (hrun : couplingLoopTraced gdpStep dt pr dx order nr nc n st = Except.ok r)
    (htr : tr ∈ r.2)
    (hwsg : runPhasesE (wsgPhases diffStep expFn wsStep dt2 fc sc hstar md) st2 =
      Except.ok r2) :
    tr = sixPhases ∧ r2.2 = wsgSixPhases := by
  constructor
  · rw [couplingLoopTraced_traces gdpStep dt pr dx order nr nc n st r hrun] at htr
    exact List.eq_of_mem_replicate htr
  · exact runPhasesE_trace (wsgPhases diffStep expFn wsStep dt2 fc sc hstar md) st2 r2 hwsg

/-- Concrete wolf–sheep–grass state: a 1×1 grid with one fully grown
grass patch and a 1-node Landlab grid. -/
def wsgDemo : WSGState :=
  { ws := ⟨1, 1, fun _ _ => [WSAgent.grassPatch true]⟩
    elev := [0]
    prior_elev := [0]
    soil := [1]
    creep_coef := [1]
    gm := [[0]] }

/-- C4 counterexample: a full iteration of the wolf–sheep–grass coupling
loop (trivial externals, 1×1 grid) executes the six phases in the order
aggregate, writeForcing, advance, derive, feed, agentStep — not in the
claimed order advance, derive, feed, agentStep, aggregate, writeForcing. -/
theorem coupling_phase_order_counterexample :
    (runPhasesE (wsgPhases (fun _ _ e => Except.ok e) (fun _ => 0) Except.ok 1 1 1 1 1)
        wsgDemo).map Prod.snd = Except.ok wsgSixPhases ∧
    wsgSixPhases ≠ sixPhases := by
  constructor
  · rfl
  · decide

/-- Concrete coupled groundwater state: a 3×3 grid, one farmer at (1, 1)
with well depth 5, uniform depth-to-water-table 6. -/
def coupledDemo : CoupledState :=
  { gw := { elev := List.replicate 9 0
            wt := List.replicate 9 (-6)
            depth_to_wt := List.replicate 9 6
            recharge := List.replicate 9 0 }
    fm := FarmerModel.init 1 3 3 5 (List.replicate 9 6) (fun _ => 0) (fun _ => 0)
    pumping_well_count := zeros2dN 3 3 }

/-- Extract the payload of a successful `Except`, with a fallback. -/
def okD {ε α : Type} (x : Except ε α) (d : α) : α :=
  match x with
  | Except.ok a => a
  | Except.error _ => d

/-- An identity stand-in for the external groundwater solver. -/
def demoGdp : GWState → Except String GWState := Except.ok

/-- One traced iteration of the groundwater loop on the demo state. -/
def demoRun : CoupledState × List (List Phase) :=
  okD (couplingLoopTraced demoGdp 31557600 1 1 [0] 3 3 1 coupledDemo) (coupledDemo, [])

/-- One traced iteration of the wolf–sheep–grass loop on the demo state. -/
def wsgDemoRun : WSGState × List Phase :=
  okD (runPhasesE (wsgPhases (fun _ _ e => Except.ok e) (fun _ => 0) Except.ok 1 1 1 1 1)
    wsgDemo) (wsgDemo, [])

lemma okD_eq {ε α : Type} (x : Except ε α) (d : α) (h : x.isOk = true) :
    x = Except.ok (okD x d) := by
  cases x with
  | ok a => rfl
  | error e => simp [Except.isOk, Except.toBool] at h

lemma iterE_pure {ε σ : Type} :
    ∀ (n : ℕ) (s : σ), iterE (ε := ε) Except.ok n s = Except.ok s := by
  intro n
  induction n with
  | zero => intro s; rfl
  | succ m ih => intro s; simp only [iterE]; exact ih s

lemma run_for_one_yearE_pure {ε σ : Type} (dt : ℚ) (s : σ) :
    run_for_one_yearE (ε := ε) Except.ok dt s = Except.ok s :=
  iterE_pure _ s

lemma num_iter_31557600 : num_iter_per_year 31557600 = 1 := by
  have h : (365.25 : ℚ) * 3600.0 * 24 / 31557600 = 1 := by norm_num
  rw [num_iter_per_year, h]
  simp

lemma demoRun_ok :
    couplingLoopTraced demoGdp 31557600 1 1 [0] 3 3 1 coupledDemo = Except.ok demoRun :=
  okD_eq _ _ (by
    simp [couplingLoopTraced, coupleTrace, couplePhases, runPhasesE, demoGdp,
      run_for_one_yearE_pure, Except.map, coupledDemo, FarmerModel.init,
      FarmerModel.feed, FarmerModel.agentStep, reshape2d, List.length_zipWith,
      Except.isOk, Except.toBool])

lemma wsgDemoRun_ok :
    runPhasesE (wsgPhases (fun _ _ e => Except.ok e) (fun _ => 0) Except.ok 1 1 1 1 1)
      wsgDemo = Except.ok wsgDemoRun :=
  okD_eq _ _ (by rfl)

/-- Witness for the amended C4 at the two concrete demo runs. -/
theorem coupling_phase_order_witness :
    couplingLoopTraced demoGdp 31557600 1 1 [0] 3 3 1 coupledDemo = Except.ok demoRun ∧
    sixPhases ∈ demoRun.2 ∧
    runPhasesE (wsgPhases (fun _ _ e => Except.ok e) (fun _ => 0) Except.ok 1 1 1 1 1)
        wsgDemo = Except.ok wsgDemoRun ∧
    (sixPhases = sixPhases ∧ wsgDemoRun.2 = wsgSixPhases) := by
  have htr : sixPhases ∈ demoRun.2 := by
    rw [couplingLoopTraced_traces demoGdp 31557600 1 1 [0] 3 3 1 coupledDemo demoRun
      demoRun_ok]
    simp
  exact ⟨demoRun_ok, htr, wsgDemoRun_ok,
    coupling_phase_order demoGdp 31557600 1 1 [0] 3 3 1 coupledDemo demoRun sixPhases
      (fun _ _ e => Except.ok e) (fun _ => 0) Except.ok 1 1 1 1 1 wsgDemo wsgDemoRun
      demoRun_ok htr wsgDemoRun_ok⟩

lemma iterE_error {ε σ : Type} (f : σ → Except ε σ) :
    ∀ (k n : ℕ) (s st : σ) (e : ε), k < n → iterE f k s = Except.ok st →
      f st = Except.error e → iterE f n s = Except.error e := by
  intro k
  induction k with
  | zero =>
      intro n s st e hk h0 herr
      cases n with
      | zero => omega
      | succ m =>
          have hs : s = st := by
            simp only [iterE] at h0
            injection h0
          subst hs
          simp [iterE, herr]
  | succ k ih =>
      intro n s st e hk hok herr
      cases n with
      | zero => omega
      | succ m =>
          cases hfs : f s with
          | error e' => simp [iterE, hfs] at hok
          | ok s' =>
              have hok' : iterE f k s' = Except.ok st := by
                simpa only [iterE, hfs] using hok
              have hrec := ih m s' st e (by omega) hok' herr
              simp only [iterE, hfs]
              exact hrec

/-- C7: the coupling loop performs no local error recovery — if some
iteration's body raises (here: any `Except.error` produced by an external
call or the reshape), the whole loop returns exactly that error. -/
theorem loop_error_propagation (gdpStep : GWState → Except String GWState)
    (dt pr dx : ℚ) (order : List ℕ) (nr nc : ℕ) (k n : ℕ)
    (s st : CoupledState) (e : String)
    (hk : k < n)
    (hok : iterE (coupleBody gdpStep dt pr dx order nr nc) k s = Except.ok st)
    (herr : coupleBody gdpStep dt pr dx order nr nc st = Except.error e) :
    couplingLoop gdpStep dt pr dx order nr nc n s = Except.error e :=
  iterE_error (coupleBody gdpStep dt pr dx order nr nc) k n s st e hk hok herr

/-- A solver stand-in that always raises. -/
def failingGdp : GWState → Except String GWState := fun _ => Except.error "solver raised"

/-- Witness for C7: a solver error in the first iteration surfaces as the
loop's result, unchanged. -/
lemma failingGdp_body :
    coupleBody failingGdp 31557600 1 1 [0] 3 3 coupledDemo =
      Except.error "solver raised" := by
  simp [coupleBody, coupleTrace, couplePhases, runPhasesE, failingGdp,
    run_for_one_yearE, num_iter_31557600, iterE, Except.map]

theorem loop_error_propagation_witness :
    0 < 1 ∧
    iterE (coupleBody failingGdp 31557600 1 1 [0] 3 3) 0 coupledDemo =
      Except.ok coupledDemo ∧
    coupleBody failingGdp 31557600 1 1 [0] 3 3 coupledDemo =
      Except.error "solver raised" ∧
    couplingLoop failingGdp 31557600 1 1 [0] 3 3 1 coupledDemo =
      Except.error "solver raised" :=
  ⟨by decide, rfl, failingGdp_body,
    loop_error_propagation failingGdp 31557600 1 1 [0] 3 3 0 1 coupledDemo coupledDemo
      "solver raised" (by decide) rfl failingGdp_body⟩

/-- Wrap a pure solver step so that each call also bumps a counter. -/
def countStep {σ : Type} (f : σ → σ) : σ × ℕ → Except String (σ × ℕ) :=
  fun p => Except.ok (f p.1, p.2 + 1)

lemma iterE_countStep {σ : Type} (f : σ → σ) :
    ∀ (n : ℕ) (s : σ) (c : ℕ),
      iterE (countStep f) n (s, c) = Except.ok (f^[n] s, c + n) := by
  intro n
  induction n with
  | zero => intro s c; simp [iterE]
  | succ m ih =>
      intro s c
      have harith : c + 1 + m = c + (m + 1) := by omega
      simp only [iterE, countStep]
      rw [ih (f s) (c + 1), Function.iterate_succ_apply, harith]

/-- C8: the coupling loop runs exactly `n` iterations (one trace per
iteration), and each `run_for_one_year` call advances the solver by
exactly `num_iter_per_year dt = int(365.25 * 3600 * 24 / dt)` inner
`run_one_step` calls, a number fixed before the loop starts. -/
theorem loop_iteration_count {σ : Type} (gdpStep : GWState → Except String GWState)
    (dt pr dx : ℚ) (order : List ℕ) (nr nc n : ℕ) (st : CoupledState)
    (r : CoupledState × List (List Phase)) (f : σ → σ) (s : σ)
    (hdt : 0 < dt)
    (hrun : couplingLoopTraced gdpStep dt pr dx order nr nc n st = Except.ok r) :
    r.2.length = n ∧
    run_for_one_yearE (countStep f) dt (s, 0) =
      Except.ok (f^[num_iter_per_year dt] s, num_iter_per_year dt) ∧
    num_iter_per_year dt = (⌊(365.25 : ℚ) * 3600.0 * 24 / dt⌋).toNat := by
  refine ⟨?_, ?_, rfl⟩
  · rw [couplingLoopTraced_traces gdpStep dt pr dx order nr nc n st r hrun]
    simp
  · show iterE (countStep f) (num_iter_per_year dt) (s, 0) = _
    rw [iterE_countStep f (num_iter_per_year dt) s 0, Nat.zero_add]

/-- Witness for C8: one iteration on the demo state with
`dt = 31557600 s` (one inner call per year). -/
theorem loop_iteration_count_witness :
    (0 : ℚ) < 31557600 ∧
    couplingLoopTraced demoGdp 31557600 1 1 [0] 3 3 1 coupledDemo = Except.ok demoRun ∧
    (demoRun.2.length = 1 ∧
     run_for_one_yearE (countStep Nat.succ) 31557600 (0, 0) =
       Except.ok (Nat.succ^[num_iter_per_year 31557600] 0, num_iter_per_year 31557600) ∧
     num_iter_per_year 31557600 = (⌊(365.25 : ℚ) * 3600.0 * 24 / 31557600⌋).toNat) :=
  ⟨by norm_num, demoRun_ok,
    loop_iteration_count demoGdp 31557600 1 1 [0] 3 3 1 coupledDemo demoRun Nat.succ 0
      (by norm_num) demoRun_ok⟩
